import Mathlib

/-!
Shallow embedding of the `strict-env` crate (`src/lib.rs`): resolution of
environment variables into typed values, with a structured error taxonomy
(`Missing` / `InvalidUtf8` / `InvalidValue`) and three entry points
(`parse`, `parse_optional`, `parse_or_default`).
-/

namespace StrictEnv

/-- Model of an `std::ffi::OsString` value as stored in the process
environment: either valid UTF-8 text (carrying the decoded string) or a raw
byte sequence that is not valid UTF-8. This is exactly the distinction
observable through `std::env::var`, which returns the decoded `String` for a
valid-UTF-8 value and the original `OsString` (the raw bytes, untouched)
otherwise. -/
inductive OsString where
  | utf8 (s : String)
  | nonUtf8 (bytes : List Nat)
deriving Repr, DecidableEq

/-- Model of `std::env::VarError`: the variable is absent, or present but
its value is not valid unicode (the value is carried along). -/
inductive VarError where
  | notPresent
  | notUnicode (value : OsString)
deriving Repr, DecidableEq

/-- The process environment: a read-only partial map from variable names to
OS-string values. -/
def Env : Type := String → Option OsString

/-- Model of `std::env::var`: `Ok` with the decoded text when the variable
is present with valid UTF-8, `Err(NotPresent)` when absent,
`Err(NotUnicode(value))` with the original raw value otherwise. -/
def envVar (env : Env) (name : String) : Except VarError String :=
  match env name with
  | none => .error .notPresent
  | some (.utf8 s) => .ok s
  | some (.nonUtf8 bs) => .error (.notUnicode (.nonUtf8 bs))

/-- Model of a `Box<dyn std::error::Error + Send + Sync>`: what remains
observable through the boxed trait object, namely its display text and the
display texts of its chain of underlying causes (`source()` links). -/
structure BoxError where
  display : String
  causeChain : List String
deriving Repr, DecidableEq

/-- The crate's `Error` enum: `Missing { name }`,
`InvalidUtf8 { name, value }` (the raw value), and
`InvalidValue { name, value, source }` (the text and the boxed underlying
conversion error). -/
inductive Error where
  | missing (name : String)
  | invalidUtf8 (name : String) (value : OsString)
  | invalidValue (name : String) (value : String) (source : BoxError)
deriving Repr, DecidableEq

/-- `std::error::Error::source` for the crate's `Error`, as generated by
`thiserror`: only the `InvalidValue` variant marks a field `#[source]`, so
only it exposes an underlying cause. -/
def Error.source : Error → Option BoxError
  | .invalidValue _ _ s => some s
  | _ => none

/-- Model of `strict_env::parse::<T>`. The target type's `FromStr`
implementation is the parameter `fromStr`, and the bound
`T::Err: Into<Box<dyn Error + Send + Sync>>` is the parameter `into`.
Mirrors the source control flow: query `env::var`; on `Ok` reject an empty
value as `Missing`; on `Err(NotPresent)` return `Missing`; on
`Err(NotUnicode(value))` return `InvalidUtf8` with the raw value; then run
`T::from_str` on the text, returning the parsed value or `InvalidValue`
with the text and `err.into()`. -/
def parse {T E : Type} (fromStr : String → Except E T) (into : E → BoxError)
    (env : Env) (name : String) : Except Error T :=
  match envVar env name with
  | .error .notPresent => .error (.missing name)
  | .error (.notUnicode value) => .error (.invalidUtf8 name value)
  | .ok value =>
    if value.isEmpty then
      .error (.missing name)
    else
      match fromStr value with
      | .ok parsed => .ok parsed
      | .error err => .error (.invalidValue name value (into err))

/-- Model of `strict_env::parse_optional::<T>`: delegates to `parse`,
mapping `Ok(v)` to `Ok(Some(v))`, `Err(Missing { .. })` to `Ok(None)`, and
propagating any other error unchanged. -/
def parse_optional {T E : Type} (fromStr : String → Except E T)
    (into : E → BoxError) (env : Env) (name : String) :
    Except Error (Option T) :=
  match parse fromStr into env name with
  | .ok parsed => .ok (some parsed)
  | .error (.missing _) => .ok none
  | .error err => .error err

/-- Model of `strict_env::parse_or_default::<T>`: delegates to
`parse_optional` and maps the result through `Option::unwrap_or_default`.
The `Default` bound on `T` is the parameter `dflt`. -/
def parse_or_default {T E : Type} (fromStr : String → Except E T)
    (into : E → BoxError) (dflt : T) (env : Env) (name : String) :
    Except Error T :=
  (parse_optional fromStr into env name).map (fun o => o.getD dflt)

/-- Debug-escaping of one character, as performed by Rust's `{:?}`
formatting of strings (used by the `#[error("... {name:?} ...")]` format
strings): the double quote, backslash and the common control characters get
their standard escapes. (Escaping of other non-printable characters is not
modelled; every display theorem below restricts the name to plain printable
ASCII, where the two semantics agree character for character.) -/
def escapeDebugChar (c : Char) : String :=
  if c = '"' then "\\\""
  else if c = '\\' then "\\\\"
  else if c = '\n' then "\\n"
  else if c = '\t' then "\\t"
  else if c = '\r' then "\\r"
  else String.singleton c

/-- Concatenation of the debug-escapes of a list of characters. -/
def escapeDebugList : List Char → String
  | [] => ""
  | c :: cs => escapeDebugChar c ++ escapeDebugList cs

/-- Rust's `{:?}` rendering of a string: its characters debug-escaped,
surrounded by double quotes. -/
def rustDebug (s : String) : String :=
  "\"" ++ escapeDebugList s.data ++ "\""

/-- The `Display` implementation of `Error`, generated by `thiserror` from
the `#[error(...)]` attributes in the source. -/
def Error.display : Error → String
  | .missing name => "Missing or empty environment variable " ++ rustDebug name
  | .invalidUtf8 name _ => "Invalid UTF-8 in environment variable " ++ rustDebug name
  | .invalidValue name _ src =>
      "Error parsing environment variable " ++ rustDebug name ++ ": " ++ src.display

/-- A printable ASCII character that Rust's string debug-formatting renders
verbatim (not the double quote and not the backslash). -/
def plainChar (c : Char) : Bool :=
  (32 ≤ c.toNat && c.toNat ≤ 126) && (c ≠ '"' && c ≠ '\\')

/-- Model of `std::num::ParseIntError` (the three kinds reachable from
`u8::from_str`). -/
inductive ParseIntError where
  | empty
  | invalidDigit
  | posOverflow
deriving Repr, DecidableEq

/-- The `Display` texts of `std::num::ParseIntError`. -/
def ParseIntError.display : ParseIntError → String
  | .empty => "cannot parse integer from empty string"
  | .invalidDigit => "invalid digit found in string"
  | .posOverflow => "number too large to fit in target type"

/-- Model of `u8::from_str` (a concrete `FromStr` instance used by the
crate's tests): empty input is an error, an optional leading `+` is
allowed, all remaining characters must be decimal digits, and the decimal
value must fit in 8 bits. The result is returned as a `Nat` (always at most
255). -/
def u8FromStr (s : String) : Except ParseIntError Nat :=
  if s.isEmpty then .error .empty
  else
    let digits := if s.front = '+' then (s.drop 1).data else s.data
    if digits.isEmpty then .error .invalidDigit
    else if digits.all Char.isDigit then
      let n := digits.foldl (fun acc c => acc * 10 + (c.toNat - 48)) 0
      if n ≤ 255 then .ok n else .error .posOverflow
    else .error .invalidDigit

/-- `ParseIntError`'s conversion into `Box<dyn Error + Send + Sync>`
(the blanket `From` impl): boxing preserves the display text, and
`ParseIntError` has no underlying cause, so the cause chain is empty. -/
def ParseIntError.intoBox (e : ParseIntError) : BoxError :=
  ⟨e.display, []⟩

/-- `<u8 as Default>::default()`. -/
def u8Default : Nat := 0

/-- An environment holding exactly one variable. -/
def envWith (name : String) (value : OsString) : Env :=
  fun n => if n = name then some value else none

/-- The empty environment. -/
def emptyEnv : Env := fun _ => none

/-- The four mutually exclusive outcome kinds of a required resolve. -/
inductive OutcomeKind where
  | success
  | missingVar
  | invalidUtf8
  | invalidValue
deriving Repr, DecidableEq

/-- C1: for every environment and name such that the variable is present
with valid non-empty text on which the target type's conversion succeeds,
`parse` returns the converted value (and no error). -/
theorem parse_ok_of_valid {T E : Type} (fromStr : String → Except E T)
    (into : E → BoxError) (env : Env) (name text : String) (v : T)
    (hpresent : env name = some (.utf8 text)) (hne : text ≠ "")
    (hconv : fromStr text = .ok v) :
    parse fromStr into env name = .ok v := by
  unfold parse envVar
  rw [hpresent]
  simp [String.isEmpty_iff, hne, hconv]

/-- Witness for C1 at a concrete input: `TEST_VAR=255` parsed as `u8`
yields `255`. -/
theorem parse_ok_of_valid_witness :
    parse u8FromStr ParseIntError.intoBox
      (envWith "TEST_VAR" (.utf8 "255")) "TEST_VAR" = .ok 255 :=
  parse_ok_of_valid u8FromStr ParseIntError.intoBox _ "TEST_VAR" "255" 255
    rfl (by decide) rfl

/-- C2: `parse` fails with `Missing { name }` exactly when the variable is
absent or its value is the empty string; and on the empty string in
particular it never yields `InvalidValue`. -/
theorem parse_missing_iff {T E : Type} (fromStr : String → Except E T)
    (into : E → BoxError) (env : Env) (name : String) :
    (parse fromStr into env name = .error (.missing name) ↔
      env name = none ∨ env name = some (.utf8 "")) ∧
    (env name = some (.utf8 "") →
      ∀ n val src, parse fromStr into env name ≠
        .error (.invalidValue n val src)) := by
  constructor
  · unfold parse envVar
    rcases h : env name with _ | v
    · simp
    · rcases v with s | bs
      · by_cases hs : s = ""
        · subst hs
          simp [String.isEmpty_iff]
        · simp only [String.isEmpty_iff, reduceCtorEq, or_false,
            Option.some.injEq, OsString.utf8.injEq, if_neg hs]
          rcases hfs : fromStr s with e | t <;> simp [hs]
      · simp
  · intro hempty n val src
    unfold parse envVar
    rw [hempty]
    simp [String.isEmpty_iff]

/-- Witness for C2 at a concrete input: `TEST_VAR` set to the empty string
is classified as `Missing`. -/
theorem parse_missing_iff_witness :
    parse u8FromStr ParseIntError.intoBox
      (envWith "TEST_VAR" (.utf8 "")) "TEST_VAR"
      = .error (.missing "TEST_VAR") :=
  (parse_missing_iff u8FromStr ParseIntError.intoBox
    (envWith "TEST_VAR" (.utf8 "")) "TEST_VAR").1.mpr (Or.inr rfl)

/-- C3: a single call to `parse` produces exactly one of the four outcomes
success / `Missing` / `InvalidUtf8` / `InvalidValue`: there is a unique
outcome kind whose shape the result takes, so the four outcomes are
mutually exclusive and together exhaustive. -/
theorem parse_exactly_one_outcome {T E : Type} (fromStr : String → Except E T)
    (into : E → BoxError) (env : Env) (name : String) :
    ∃! k : OutcomeKind,
      ((k = .success ↔ ∃ v, parse fromStr into env name = .ok v) ∧
       (k = .missingVar ↔ ∃ n, parse fromStr into env name = .error (.missing n)) ∧
       (k = .invalidUtf8 ↔ ∃ n raw,
          parse fromStr into env name = .error (.invalidUtf8 n raw)) ∧
       (k = .invalidValue ↔ ∃ n val src,
          parse fromStr into env name = .error (.invalidValue n val src))) := by
  rcases hr : parse fromStr into env name with e | v
  · rcases e with n | ⟨n, raw⟩ | ⟨n, val, src⟩
    · refine ⟨.missingVar, by simp, ?_⟩
      intro y hy
      rcases y <;> simp_all
    · refine ⟨.invalidUtf8, by simp, ?_⟩
      intro y hy
      rcases y <;> simp_all
    · refine ⟨.invalidValue, by simp, ?_⟩
      intro y hy
      rcases y <;> simp_all
  · refine ⟨.success, by simp, ?_⟩
    intro y hy
    rcases y <;> simp_all

/-- C4: when the raw environment value is not valid UTF-8, `parse` fails
with `InvalidUtf8 { name, value }` where the carried value is exactly the
original raw bytes. -/
theorem parse_invalidUtf8_of_nonUtf8 {T E : Type}
    (fromStr : String → Except E T) (into : E → BoxError) (env : Env)
    (name : String) (bs : List Nat)
    (hpresent : env name = some (.nonUtf8 bs)) :
    parse fromStr into env name = .error (.invalidUtf8 name (.nonUtf8 bs)) := by
  unfold parse envVar
  rw [hpresent]

/-- Witness for C4 at a concrete input: the raw bytes
`[0x66, 0x6F, 0x6F, 0x80]` (not valid UTF-8) are classified as
`InvalidUtf8` and retained exactly. -/
theorem parse_invalidUtf8_of_nonUtf8_witness :
    parse u8FromStr ParseIntError.intoBox
      (envWith "TEST_VAR" (.nonUtf8 [0x66, 0x6F, 0x6F, 0x80])) "TEST_VAR"
      = .error (.invalidUtf8 "TEST_VAR" (.nonUtf8 [0x66, 0x6F, 0x6F, 0x80])) :=
  parse_invalidUtf8_of_nonUtf8 u8FromStr ParseIntError.intoBox
    (envWith "TEST_VAR" (.nonUtf8 [0x66, 0x6F, 0x6F, 0x80])) "TEST_VAR"
    [0x66, 0x6F, 0x6F, 0x80] rfl

/-- C5: when the variable holds valid non-empty text that the target
type's conversion rejects, `parse` fails with
`InvalidValue { name, value, source }` where `value` is exactly the text
handed to the converter and `source` is the underlying error converted by
`into` (the boxing conversion, which preserves its display text and cause
chain); moreover `Error::source()` exposes that boxed cause for
inspection. -/
theorem parse_invalidValue_of_conv_error {T E : Type}
    (fromStr : String → Except E T) (into : E → BoxError) (env : Env)
    (name text : String) (e : E)
    (hpresent : env name = some (.utf8 text)) (hne : text ≠ "")
    (hconv : fromStr text = .error e) :
    parse fromStr into env name
      = .error (.invalidValue name text (into e)) ∧
    Error.source (.invalidValue name text (into e)) = some (into e) := by
  refine ⟨?_, rfl⟩
  unfold parse envVar
  rw [hpresent]
  simp [String.isEmpty_iff, hne, hconv]

/-- Witness for C5 at a concrete input: `TEST_VAR=256` targeted at `u8`
fails with `InvalidValue` carrying the text `"256"` and the boxed overflow
error, and `Error::source()` yields that boxed error. -/
theorem parse_invalidValue_of_conv_error_witness :
    parse u8FromStr ParseIntError.intoBox
      (envWith "TEST_VAR" (.utf8 "256")) "TEST_VAR"
      = .error (.invalidValue "TEST_VAR" "256"
          ⟨"number too large to fit in target type", []⟩) ∧
    Error.source (.invalidValue "TEST_VAR" "256"
        ⟨"number too large to fit in target type", []⟩)
      = some ⟨"number too large to fit in target type", []⟩ :=
  parse_invalidValue_of_conv_error u8FromStr ParseIntError.intoBox
    (envWith "TEST_VAR" (.utf8 "256")) "TEST_VAR" "256"
    ParseIntError.posOverflow rfl (by decide) rfl

/-- Helper: a `Missing` error produced by `parse` always carries the
requested variable name. -/
theorem parse_missing_name {T E : Type} (fromStr : String → Except E T)
    (into : E → BoxError) (env : Env) {name n : String}
    (h : parse fromStr into env name = .error (.missing n)) : n = name := by
  unfold parse envVar at h
  rcases henv : env name with _ | v <;> rw [henv] at h
  · simp at h
    exact h.symm
  · rcases v with s | bs
    · by_cases hs : s = ""
      · subst hs
        simp [String.isEmpty_iff] at h
        exact h.symm
      · simp only [String.isEmpty_iff, if_neg hs] at h
        rcases hfs : fromStr s with e | t <;> rw [hfs] at h <;> simp at h
    · simp at h

/-- C6: `parse_optional` returns a successful empty result exactly when
`parse` fails with `Missing`, returns a successful present result exactly
when `parse` succeeds, and propagates `InvalidUtf8` and `InvalidValue`
errors of `parse` identically (never downgrading them to a successful
empty result). -/
theorem parse_optional_spec {T E : Type} (fromStr : String → Except E T)
    (into : E → BoxError) (env : Env) (name : String) :
    (parse_optional fromStr into env name = .ok none ↔
       parse fromStr into env name = .error (.missing name)) ∧
    (∀ v : T, parse_optional fromStr into env name = .ok (some v) ↔
       parse fromStr into env name = .ok v) ∧
    (∀ n raw, parse fromStr into env name = .error (.invalidUtf8 n raw) →
       parse_optional fromStr into env name = .error (.invalidUtf8 n raw)) ∧
    (∀ n val src,
       parse fromStr into env name = .error (.invalidValue n val src) →
       parse_optional fromStr into env name
         = .error (.invalidValue n val src)) := by
  rcases hp : parse fromStr into env name with e | v
  · rcases e with n | ⟨n, raw⟩ | ⟨n, val, src⟩
    · have hn : n = name := parse_missing_name fromStr into env hp
      subst hn
      refine ⟨?_, ?_, ?_, ?_⟩ <;> simp [parse_optional, hp]
    · refine ⟨?_, ?_, ?_, ?_⟩ <;> simp [parse_optional, hp]
    · refine ⟨?_, ?_, ?_, ?_⟩ <;> simp [parse_optional, hp]
  · refine ⟨?_, ?_, ?_, ?_⟩ <;> simp [parse_optional, hp]

/-- Witness for C6 at a concrete input: with `TEST_VAR` absent,
`parse_optional` returns a successful empty result. -/
theorem parse_optional_spec_witness :
    parse_optional u8FromStr ParseIntError.intoBox emptyEnv "TEST_VAR"
      = .ok none :=
  (parse_optional_spec u8FromStr ParseIntError.intoBox emptyEnv
    "TEST_VAR").1.mpr rfl

/-- C7: `parse_or_default` returns the target type's default value exactly
when `parse_optional` returns a successful empty result, returns the
parsed value when `parse_optional` returns a successful present result,
and propagates `parse_optional`'s errors unchanged. -/
theorem parse_or_default_spec {T E : Type} (fromStr : String → Except E T)
    (into : E → BoxError) (dflt : T) (env : Env) (name : String) :
    (parse_optional fromStr into env name = .ok none →
       parse_or_default fromStr into dflt env name = .ok dflt) ∧
    (∀ v, parse_optional fromStr into env name = .ok (some v) →
       parse_or_default fromStr into dflt env name = .ok v) ∧
    (∀ e, parse_optional fromStr into env name = .error e →
       parse_or_default fromStr into dflt env name = .error e) := by
  refine ⟨fun h => ?_, fun v h => ?_, fun e h => ?_⟩ <;>
    simp [parse_or_default, h, Except.map]

/-- Witness for C7 at concrete inputs: with `TEST_VAR` absent and `u8` as
the target, `parse_or_default` returns `u8`'s default value, which is `0`;
with `TEST_VAR=255` it returns `255`. -/
theorem parse_or_default_spec_witness :
    parse_or_default u8FromStr ParseIntError.intoBox u8Default emptyEnv
      "TEST_VAR" = .ok u8Default ∧
    u8Default = 0 ∧
    parse_or_default u8FromStr ParseIntError.intoBox u8Default
      (envWith "TEST_VAR" (.utf8 "255")) "TEST_VAR" = .ok 255 :=
  ⟨(parse_or_default_spec u8FromStr ParseIntError.intoBox u8Default emptyEnv
      "TEST_VAR").1 rfl,
   rfl,
   (parse_or_default_spec u8FromStr ParseIntError.intoBox u8Default
      (envWith "TEST_VAR" (.utf8 "255")) "TEST_VAR").2.1 255 rfl⟩

/-- Helper: string append is associative. -/
theorem strAppend_assoc (a b c : String) : a ++ b ++ c = a ++ (b ++ c) := by
  apply String.ext
  simp [String.data_append]

/-- Helper: debug-escaping renders a list of plain printable characters
verbatim. -/
theorem escapeDebugList_plain (l : List Char) (h : l.all plainChar = true) :
    escapeDebugList l = String.mk l := by
  induction l with
  | nil => rfl
  | cons c cs ih =>
    simp only [List.all_cons, Bool.and_eq_true] at h
    have hc : plainChar c = true := h.1
    simp only [plainChar, Bool.and_eq_true, decide_eq_true_eq] at hc
    have hce : escapeDebugChar c = String.singleton c := by
      unfold escapeDebugChar
      rw [if_neg hc.2.1, if_neg hc.2.2, if_neg ?hn, if_neg ?ht, if_neg ?hr]
      case hn => intro hEq; subst hEq; exact absurd hc.1.1 (by decide)
      case ht => intro hEq; subst hEq; exact absurd hc.1.1 (by decide)
      case hr => intro hEq; subst hEq; exact absurd hc.1.1 (by decide)
    show escapeDebugChar c ++ escapeDebugList cs = String.mk (c :: cs)
    rw [hce, ih h.2]
    rfl

/-- C8: the display text of each error variant matches the exact format
from the source's `#[error(...)]` attributes — `Missing` renders as
`Missing or empty environment variable "<name>"`, `InvalidUtf8` as
`Invalid UTF-8 in environment variable "<name>"`, and `InvalidValue` as
`Error parsing environment variable "<name>": <source-display>` — for any
name made of plain printable characters (which the `{name:?}` debug
formatting renders verbatim inside the quotes). -/
theorem error_display_formats (name text : String) (raw : OsString)
    (src : BoxError) (hplain : name.data.all plainChar = true) :
    Error.display (.missing name)
      = "Missing or empty environment variable \"" ++ name ++ "\"" ∧
    Error.display (.invalidUtf8 name raw)
      = "Invalid UTF-8 in environment variable \"" ++ name ++ "\"" ∧
    Error.display (.invalidValue name text src)
      = "Error parsing environment variable \"" ++ name ++ "\": "
        ++ src.display := by
  have hq : rustDebug name = "\"" ++ name ++ "\"" := by
    unfold rustDebug
    rw [escapeDebugList_plain name.data hplain]
  have h1 : ("Missing or empty environment variable \"" : String)
      = "Missing or empty environment variable " ++ "\"" := rfl
  have h2 : ("Invalid UTF-8 in environment variable \"" : String)
      = "Invalid UTF-8 in environment variable " ++ "\"" := rfl
  have h3 : ("Error parsing environment variable \"" : String)
      = "Error parsing environment variable " ++ "\"" := rfl
  have h4 : ("\": " : String) = "\"" ++ ": " := rfl
  refine ⟨?_, ?_, ?_⟩ <;>
    simp only [Error.display, hq, h1, h2, h3, h4, strAppend_assoc]

/-- Witness for C8 at the concrete name `TEST_VAR` (and, for
`InvalidValue`, the underlying error display text exercised by the
crate's tests). -/
theorem error_display_formats_witness :
    Error.display (.missing "TEST_VAR")
      = "Missing or empty environment variable \"TEST_VAR\"" ∧
    Error.display (.invalidUtf8 "TEST_VAR" (.nonUtf8 [0x66, 0x6F, 0x6F, 0x80]))
      = "Invalid UTF-8 in environment variable \"TEST_VAR\"" ∧
    Error.display (.invalidValue "TEST_VAR" ""
        ⟨"cannot parse integer from empty string", []⟩)
      = "Error parsing environment variable \"TEST_VAR\": cannot parse integer from empty string" :=
  error_display_formats "TEST_VAR" "" (.nonUtf8 [0x66, 0x6F, 0x6F, 0x80])
    ⟨"cannot parse integer from empty string", []⟩ (by decide)

/-- C10: only the exactly-empty string is classified as `Missing`: a
present, valid-text, non-empty value consisting solely of whitespace is
not `Missing`; instead the whitespace text is handed to the target type's
conversion, and `parse` returns its success value or fails with
`InvalidValue` on its rejection. -/
theorem parse_whitespace_not_missing {T E : Type}
    (fromStr : String → Except E T) (into : E → BoxError) (env : Env)
    (name text : String)
    (hpresent : env name = some (.utf8 text)) (hne : text ≠ "")
    (_hws : text.data.all Char.isWhitespace = true) :
    (∀ n, parse fromStr into env name ≠ .error (.missing n)) ∧
    (∀ v, fromStr text = .ok v → parse fromStr into env name = .ok v) ∧
    (∀ e, fromStr text = .error e →
       parse fromStr into env name
         = .error (.invalidValue name text (into e))) := by
  have hparse : parse fromStr into env name
      = match fromStr text with
        | .ok parsed => .ok parsed
        | .error err => .error (.invalidValue name text (into err)) := by
    unfold parse envVar
    rw [hpresent]
    simp [String.isEmpty_iff, hne]
  refine ⟨?_, ?_, ?_⟩
  · intro n h
    rw [hparse] at h
    rcases hfs : fromStr text with e | t <;> rw [hfs] at h <;> simp at h
  · intro v hv
    rw [hparse, hv]
  · intro e he
    rw [hparse, he]

/-- Witness for C10 at a concrete input: `TEST_VAR` set to a single space
targeted at `u8` is not `Missing`; the space is handed to `u8::from_str`,
which rejects it, so `parse` fails with `InvalidValue` carrying the space
and the boxed invalid-digit error. -/
theorem parse_whitespace_not_missing_witness :
    parse u8FromStr ParseIntError.intoBox
      (envWith "TEST_VAR" (.utf8 " ")) "TEST_VAR"
      = .error (.invalidValue "TEST_VAR" " "
          ⟨"invalid digit found in string", []⟩) :=
  (parse_whitespace_not_missing u8FromStr ParseIntError.intoBox
    (envWith "TEST_VAR" (.utf8 " ")) "TEST_VAR" " " rfl (by decide)
    (by decide)).2.2 ParseIntError.invalidDigit rfl

end StrictEnv
